import Mathlib

/-!
Verification of the Real-Time App Manager single-page application
(`src/server.js`) against its natural-language specification.

The source is a React component using the Firebase SDK.  We embed the
program shallowly:

* component state (`useState` hooks) becomes the structure `AppState`;
* each handler (`checkAdminStatus`, `logInitialActivity`, the
  `onSnapshot` listener, `logUserActivity`, the `onAuthStateChanged`
  callback) becomes a pure Lean function from its inputs and the
  pre-state to the post-state together with the list of document writes
  it performs;
* the outcome of each backend call (document read, query, write,
  sign-in) is an explicit input of the corresponding function, since the
  backend is an external service;
* JavaScript truthiness of nullable strings (`!db`, `!userId`,
  `!logMessage.trim()`, `if (initialAuthToken)`) is modelled by
  `jsTruthyStr` on `Option String`: `null`/`undefined` and the empty
  string are falsy, every other string is truthy;
* absence of an object field is modelled with `Option` (the seed record
  `initialActivity` at `src/server.js:44` has no `is_admin` and no
  `app_version` field, so those components are `none` there).
-/

namespace RealTimeAppManager

/-- JavaScript truthiness of a nullable string value: `null`/`undefined`
(`none`) and the empty string are falsy, any other string is truthy. -/
def jsTruthyStr : Option String → Bool
  | none => false
  | some s => s != ""

/-- JavaScript `trim()` on a string: strip leading and trailing
whitespace.  Defined by structural recursion over the character list so
that it evaluates inside the kernel. -/
def jsTrim (s : String) : String :=
  String.mk (((s.data.dropWhile Char.isWhitespace).reverse.dropWhile
    Char.isWhitespace).reverse)

/-- `ADMINS_DOC_PATH` from `src/server.js:39`, parameterised by the
environment-supplied `appId`. -/
def ADMINS_DOC_PATH (appId : String) : String :=
  "artifacts/" ++ appId ++ "/public/settings/admins"

/-- `ACTIVITIES_COLLECTION_PATH` from `src/server.js:41`. -/
def ACTIVITIES_COLLECTION_PATH (appId : String) : String :=
  "artifacts/" ++ appId ++ "/public/data/app_activities"

/-- The value `serverTimestamp()` written into a new document: a
sentinel asking the backend to assign the server time. -/
inductive TsValue
  | server
deriving DecidableEq, Repr

/-- An activity document as written by this code.  `content`,
`timestamp` and `userId` occur in both object literals of the source;
`is_admin` and `app_version` are `Option` because the seed literal at
`src/server.js:44` omits them while the user-action literal at
`src/server.js:161` supplies them. -/
structure ActivityDoc where
  content : String
  timestamp : TsValue
  userId : String
  is_admin : Option Bool
  app_version : Option String
deriving DecidableEq, Repr

/-- `initialActivity` from `src/server.js:44`: the one-time seed
record.  It carries only `content`, `timestamp` and `userId`. -/
def initialActivity : ActivityDoc :=
  { content := "Initial activity logged to public feed."
  , timestamp := TsValue.server
  , userId := "SYSTEM"
  , is_admin := none
  , app_version := none }

/-- Result of the `getDoc` call on the admins document
(`src/server.js:99`): the document is missing, or it exists and its
`uids` field holds a list of user ids (`none` when the field is
absent, matching `data.uids || []`), or the read rejected. -/
inductive GetDocResult
  | missing
  | found (uids : Option (List String))
  | failure
deriving DecidableEq, Repr

/-- A rendered feed entry, as produced by the `onSnapshot` listener at
`src/server.js:142`: the document id, the spread document data, and the
timestamp replaced by a formatted local-time string. -/
structure RenderedActivity where
  id : String
  content : String
  userId : String
  is_admin : Option Bool
  app_version : Option String
  timestamp : String
deriving DecidableEq, Repr

/-- The React component state of `App` (`src/server.js:53`). -/
structure AppState where
  userId : Option String
  isAuthReady : Bool
  isAdmin : Bool
  loading : Bool
  globalActivities : List RenderedActivity
  logMessage : String
deriving DecidableEq, Repr

/-- The initial component state (`useState` initialisers,
`src/server.js:53`). -/
def initState : AppState :=
  { userId := none
  , isAuthReady := false
  , isAdmin := false
  , loading := true
  , globalActivities := []
  , logMessage := "" }

/-- The role label rendered at `src/server.js:273`:
`isAdmin ? 'Administrator' : 'Standard User'`. -/
def roleLabel (s : AppState) : String :=
  if s.isAdmin then "Administrator" else "Standard User"

/-- `checkAdminStatus` from `src/server.js:94`.  Inputs: whether the
`db` handle is non-null, the current user id (nullable, tested with JS
truthiness by the guard `if (!db || !currentUserId) return`), the
result of the `getDoc` read, and the pre-state.  When the document
exists, `isAdmin` is set to whether `data.uids || []` contains the id;
when it is missing or the read fails, `isAdmin` is set to `false`. -/
def checkAdminStatus (dbPresent : Bool) (currentUserId : Option String)
    (res : GetDocResult) (s : AppState) : AppState :=
  if (dbPresent = false) ∨ (jsTruthyStr currentUserId = false) then s
  else
    match res with
    | GetDocResult.found uids =>
        { s with isAdmin := (uids.getD []).contains (currentUserId.getD "") }
    | GetDocResult.missing => { s with isAdmin := false }
    | GetDocResult.failure => { s with isAdmin := false }

/-- Outcome of a backend write (`setDoc`): the promise resolved or
rejected. -/
inductive WriteOutcome
  | success
  | failure
deriving DecidableEq, Repr

/-- A document write performed against the activities collection: the
target document id and the document written. -/
structure ActivityWrite where
  docId : String
  doc : ActivityDoc
deriving DecidableEq, Repr

/-- `logUserActivity` from `src/server.js:156`.  Inputs: whether `db`
is non-null, the auto-generated id of the fresh document reference
produced by `doc(collection(db, ...))`, the outcome of the `setDoc`
call, and the pre-state.  Returns the post-state and the list of writes
performed.  The guard `if (!db || !userId || !logMessage.trim()) return`
aborts with nothing changed; otherwise the status is set to
`'Logging...'`, the write uses the `logMessage` captured at invocation
(the local `const` is unaffected by `setLogMessage`), and on success
the status is cleared while on failure it becomes
`'Error logging activity.'`. -/
def logUserActivity (dbPresent : Bool) (freshId : String)
    (outcome : WriteOutcome) (s : AppState) : AppState × List ActivityWrite :=
  if (dbPresent = false) ∨ (jsTruthyStr s.userId = false) ∨ (jsTrim s.logMessage = "") then
    (s, [])
  else
    let s1 := { s with logMessage := "Logging..." }
    match outcome with
    | WriteOutcome.success =>
        ({ s1 with logMessage := "" },
         [{ docId := freshId
          , doc :=
            { content := jsTrim s.logMessage
            , timestamp := TsValue.server
            , userId := s.userId.getD ""
            , is_admin := some s.isAdmin
            , app_version := some "1.0" } }])
    | WriteOutcome.failure =>
        ({ s1 with logMessage := "Error logging activity." }, [])

/-- `logInitialActivity` from `src/server.js:123`.  Inputs: whether the
`limit(1)` probe query resolved (`readOk`), whether the seed `setDoc`
resolved (`writeOk`), and the contents of the activities collection at
probe time.  Returns the writes performed: the seed record is written
to the fixed id `system-init` exactly when the probe succeeds, reports
an empty collection, and the write succeeds; any rejection is caught
and nothing else happens. -/
def logInitialActivity (readOk : Bool) (writeOk : Bool)
    (coll : List (String × ActivityDoc)) : List ActivityWrite :=
  if readOk = false then []
  else if coll.isEmpty then
    if writeOk then [{ docId := "system-init", doc := initialActivity }] else []
  else []

/-- Firestore `setDoc` semantics on a collection modelled as an
association list: replace the document when the id already exists,
otherwise append a new document. -/
def applyWrite (coll : List (String × ActivityDoc)) (w : ActivityWrite) :
    List (String × ActivityDoc) :=
  if coll.any (fun p => p.1 == w.docId) then
    coll.map (fun p => if p.1 == w.docId then (p.1, w.doc) else p)
  else
    coll ++ [(w.docId, w.doc)]

/-- A document delivered in a feed snapshot.  The `timestamp` is
`none` when the field is null or still pending (the optional chain
`d.data().timestamp?.toDate()?.toLocaleTimeString()` then yields
`undefined`); otherwise it is an abstract instant to be formatted. -/
structure SnapshotDoc where
  id : String
  content : String
  userId : String
  is_admin : Option Bool
  app_version : Option String
  timestamp : Option Nat
deriving DecidableEq, Repr

/-- The timestamp formatting of the listener at `src/server.js:145`:
`d.data().timestamp?.toDate()?.toLocaleTimeString() || 'N/A'`, for an
abstract local-time formatter `fmt`.  A missing timestamp, or a
formatter output that is the empty string (falsy), yields `N/A`. -/
def renderTimestamp (fmt : Nat → String) (t : Option Nat) : String :=
  match t with
  | none => "N/A"
  | some v => if fmt v = "" then "N/A" else fmt v

/-- One entry of the mapped snapshot at `src/server.js:142`:
`{ id: d.id, ...d.data(), timestamp: <formatted> }`. -/
def renderDoc (fmt : Nat → String) (d : SnapshotDoc) : RenderedActivity :=
  { id := d.id
  , content := d.content
  , userId := d.userId
  , is_admin := d.is_admin
  , app_version := d.app_version
  , timestamp := renderTimestamp fmt d.timestamp }

/-- The `onSnapshot` listener body (`src/server.js:141`): map every
document of the snapshot, in snapshot order, to a rendered entry. -/
def onSnapshotHandler (fmt : Nat → String) (docs : List SnapshotDoc) :
    List RenderedActivity :=
  docs.map (renderDoc fmt)

/-- Effect of a delivered snapshot on the component state:
`setGlobalActivities(activities)` (`src/server.js:147`). -/
def applySnapshot (fmt : Nat → String) (docs : List SnapshotDoc)
    (s : AppState) : AppState :=
  { s with globalActivities := onSnapshotHandler fmt docs }

/-- Description of a Firestore query: target collection, ordering
field and direction, and result cap. -/
structure FeedQuery where
  collectionPath : String
  orderByField : String
  descending : Bool
  limitCount : Nat
deriving DecidableEq, Repr

/-- The live feed query built at `src/server.js:139`:
`query(collection(db, ACTIVITIES_COLLECTION_PATH),
orderBy('timestamp', 'desc'), limit(100))`. -/
def feedQuery (appId : String) : FeedQuery :=
  { collectionPath := ACTIVITIES_COLLECTION_PATH appId
  , orderByField := "timestamp"
  , descending := true
  , limitCount := 100 }

/-- The authentication state delivered to the `onAuthStateChanged`
callback: a signed-in user with a uid, or no user. -/
inductive AuthUser
  | signedIn (uid : String)
  | signedOut
deriving DecidableEq, Repr

/-- A sign-in attempt issued by the callback. -/
inductive SignInAttempt
  | customToken (t : String)
  | anonymous
deriving DecidableEq, Repr

/-- The `onAuthStateChanged` callback from `src/server.js:68`.
Inputs: the environment token `initialAuthToken` (`none` when
`__initial_auth_token` is undefined), the delivered user, whether the
sign-in call resolved, the admin-document read result consumed by
`checkAdminStatus`, whether `db` is non-null, and the pre-state.
Returns the post-state and the sign-in attempts issued.  With a user:
store the uid, run the admin check.  With no user: attempt exactly one
sign-in, with the custom token when `initialAuthToken` is truthy and
anonymously otherwise; if the attempt rejects, the catch sets `userId`
to the literal `'anonymous'`.  In every case `isAuthReady` becomes
`true` and `loading` becomes `false`. -/
def authCallback (initialAuthToken : Option String) (user : AuthUser)
    (signInOk : Bool) (adminRes : GetDocResult) (dbPresent : Bool)
    (s : AppState) : AppState × List SignInAttempt :=
  match user with
  | AuthUser.signedIn uid =>
      let s1 := { s with userId := some uid }
      let s2 := checkAdminStatus dbPresent (some uid) adminRes s1
      ({ s2 with isAuthReady := true, loading := false }, [])
  | AuthUser.signedOut =>
      let attempt :=
        if jsTruthyStr initialAuthToken then
          SignInAttempt.customToken (initialAuthToken.getD "")
        else
          SignInAttempt.anonymous
      let s1 := if signInOk then s else { s with userId := some "anonymous" }
      ({ s1 with isAuthReady := true, loading := false }, [attempt])

/-- The enabling condition of the Log Activity button
(`src/server.js:200`): `!logMessage.trim() || logMessage === 'Logging...'`
disables it, so an invocation through the UI has a non-blank message
that is not the transient status. -/
def logButtonEnabled (s : AppState) : Bool :=
  jsTrim s.logMessage != "" && s.logMessage != "Logging..."

/-!  Theorems settling the claims.  -/

/-- C1: for every completed admin-status check for the current user id
`uid` (the `db` handle present and the uid truthy, so the guard is
passed), the resulting `isAdmin` is `true` iff the admins document
exists and its `uids` field (defaulting to the empty collection when
absent) contains `uid`; when the document is missing or the read fails,
`isAdmin` is set to `false`; and whenever `isAdmin` is `true` the role
label reads `Administrator`. -/
theorem checkAdminStatus_correct (uid : String) (h : uid ≠ "")
    (res : GetDocResult) (s : AppState) :
    ((checkAdminStatus true (some uid) res s).isAdmin = true ↔
       ∃ uids, res = GetDocResult.found uids ∧ (uids.getD []).contains uid = true)
    ∧ ((res = GetDocResult.missing ∨ res = GetDocResult.failure) →
       (checkAdminStatus true (some uid) res s).isAdmin = false)
    ∧ (∀ t : AppState, t.isAdmin = true → roleLabel t = "Administrator") := by
  have hT : jsTruthyStr (some uid) = true := by
    simp [jsTruthyStr, h]
  refine ⟨?_, ?_, ?_⟩
  · cases res with
    | missing => simp [checkAdminStatus, hT]
    | failure => simp [checkAdminStatus, hT]
    | found uids =>
        simp only [checkAdminStatus, hT]
        constructor
        · intro hc
          refine ⟨uids, rfl, ?_⟩
          simpa using hc
        · rintro ⟨u2, he, hc⟩
          cases he
          simpa using hc
  · rintro (rfl | rfl) <;> simp [checkAdminStatus, hT]
  · intro t ht
    simp [roleLabel, ht]

/-- Witness for C1 at a concrete input: the check for user `u1`
against an admins document whose `uids` collection holds `u1` sets
`isAdmin` and the role label reads `Administrator`. -/
theorem checkAdminStatus_correct_witness :
    (checkAdminStatus true (some "u1")
        (GetDocResult.found (some ["u1", "u2"])) initState).isAdmin = true
    ∧ roleLabel (checkAdminStatus true (some "u1")
        (GetDocResult.found (some ["u1", "u2"])) initState) = "Administrator" := by
  have h := checkAdminStatus_correct "u1" (by decide)
    (GetDocResult.found (some ["u1", "u2"])) initState
  have hAdmin := h.1.mpr ⟨some ["u1", "u2"], rfl, by decide⟩
  exact ⟨hAdmin, h.2.2 _ hAdmin⟩

/-- A sample component state used by concrete instantiations: a signed
in user `u1` with a message typed into the input field. -/
def sampleState : AppState :=
  { initState with userId := some "u1", logMessage := "  hello  " }

/-- C2 counterexample: the one-time seed record `initialActivity` does
not carry the full five-field shape — it has no `is_admin` and no
`app_version` field, so the claim that every record created by this
code has all five fields fails on the seed record. -/
theorem initialActivity_lacks_admin_fields :
    ¬ (initialActivity.is_admin.isSome = true
        ∧ initialActivity.app_version.isSome = true) := by
  simp [initialActivity]

/-- C2 amended: every record written by the user action has the five
fields `content`, `timestamp` (server-assigned), `userId`, `is_admin`,
`app_version`; the seed record is exactly `initialActivity`, which has
`content`, `timestamp` and `userId` only — its `is_admin` and
`app_version` fields are absent. -/
theorem activity_record_fields (dbPresent : Bool) (freshId : String)
    (outcome : WriteOutcome) (s : AppState) :
    (∀ w ∈ (logUserActivity dbPresent freshId outcome s).2,
        w.doc.content = jsTrim s.logMessage
        ∧ w.doc.timestamp = TsValue.server
        ∧ w.doc.userId = s.userId.getD ""
        ∧ w.doc.is_admin = some s.isAdmin
        ∧ w.doc.app_version = some "1.0")
    ∧ (∀ (ro wo : Bool) (coll : List (String × ActivityDoc)),
        ∀ w ∈ logInitialActivity ro wo coll,
          w.doc = initialActivity
          ∧ w.doc.timestamp = TsValue.server
          ∧ w.doc.is_admin = none ∧ w.doc.app_version = none) := by
  constructor
  · intro w hw
    unfold logUserActivity at hw
    split at hw
    · simp at hw
    · cases outcome with
      | success =>
          simp only [List.mem_singleton] at hw
          subst hw
          exact ⟨rfl, rfl, rfl, rfl, rfl⟩
      | failure => simp at hw
  · intro ro wo coll w hw
    unfold logInitialActivity at hw
    split at hw
    · simp at hw
    · split at hw
      · split at hw
        · simp only [List.mem_singleton] at hw
          subst hw
          exact ⟨rfl, rfl, rfl, rfl⟩
        · simp at hw
      · simp at hw

/-- Witness for C2 (amended) at a concrete input: the user-action
write produced from `sampleState` carries all five fields. -/
theorem activity_record_fields_witness :
    ∃ w, w ∈ (logUserActivity true "a1" WriteOutcome.success sampleState).2
      ∧ w.doc.is_admin = some false ∧ w.doc.app_version = some "1.0"
      ∧ w.doc.content = "hello" := by
  have h := activity_record_fields true "a1" WriteOutcome.success sampleState
  have hne : (logUserActivity true "a1" WriteOutcome.success sampleState).2 ≠ [] := by
    decide
  obtain ⟨w, hw⟩ := List.exists_mem_of_ne_nil _ hne
  have hf := h.1 w hw
  refine ⟨w, hw, hf.2.2.2.1, hf.2.2.2.2, ?_⟩
  rw [hf.1]
  decide

/-- C3: given that the probe query and the seed write both succeed,
the seed record is written (to the fixed id `system-init`) iff the
activity collection is empty when the feed listener is set up; when at
least one record already exists no seed write is performed, whatever
the call outcomes; and at most one seed write is ever performed per
invocation. -/
theorem seed_write_iff_empty (coll : List (String × ActivityDoc)) :
    (logInitialActivity true true coll
        = [ActivityWrite.mk "system-init" initialActivity] ↔ coll = [])
    ∧ (∀ (ro wo : Bool), coll ≠ [] → logInitialActivity ro wo coll = [])
    ∧ (∀ (ro wo : Bool), (logInitialActivity ro wo coll).length ≤ 1) := by
  refine ⟨?_, ?_, ?_⟩
  · cases coll with
    | nil => simp [logInitialActivity]
    | cons a l => simp [logInitialActivity]
  · intro ro wo hne
    cases coll with
    | nil => exact absurd rfl hne
    | cons a l => cases ro <;> cases wo <;> simp [logInitialActivity]
  · intro ro wo
    cases coll <;> cases ro <;> cases wo <;> simp [logInitialActivity]

/-- Witness for C3 at concrete collections: on the empty collection the
seed is written, and on a one-element collection it is not. -/
theorem seed_write_iff_empty_witness :
    logInitialActivity true true []
        = [ActivityWrite.mk "system-init" initialActivity]
    ∧ logInitialActivity true true [("a", initialActivity)] = [] := by
  have h0 := seed_write_iff_empty ([] : List (String × ActivityDoc))
  have h1 := seed_write_iff_empty [("a", initialActivity)]
  exact ⟨h0.1.mpr rfl, h1.2.1 true true (by simp)⟩

/-- Looking a key up in an association list is unaffected by appending
further entries when the key is already bound. -/
theorem lookup_append_of_some {α β : Type} [BEq α] [LawfulBEq α]
    (l l2 : List (α × β)) (k : α) (v : β) (h : l.lookup k = some v) :
    (l ++ l2).lookup k = some v := by
  induction l with
  | nil => simp [List.lookup] at h
  | cons a t ih =>
      obtain ⟨ka, va⟩ := a
      by_cases hk : k = ka
      · subst hk
        simp_all [List.lookup]
      · have hk2 : (k == ka) = false := by simp [hk]
        simp only [List.cons_append, List.lookup, hk2] at h ⊢
        exact ih h

/-- When a key is unbound in an association list, no entry of the list
has that key. -/
theorem any_key_eq_false_of_lookup_none {α β : Type} [BEq α] [LawfulBEq α]
    (l : List (α × β)) (k : α) (h : l.lookup k = none) :
    (l.any fun p => p.1 == k) = false := by
  induction l with
  | nil => rfl
  | cons a t ih =>
      obtain ⟨ka, va⟩ := a
      by_cases hk : k = ka
      · subst hk
        simp [List.lookup] at h
      · have hk2 : (k == ka) = false := by simp [hk]
        have hk3 : (ka == k) = false := by simp [Ne.symm hk]
        simp only [List.lookup, hk2] at h
        simp only [List.any_cons, hk3, Bool.false_or]
        exact ih h

/-- C7: no operation of this code updates or deletes an existing
activity record.  Given that the auto-generated id of the user-action
write is fresh (`coll.lookup freshId = none`, the semantics of
`doc(collection(db, ...))`), applying the writes of `logUserActivity`
to the collection leaves every existing binding intact, and so does
applying the writes of `logInitialActivity` (whose only write happens
on an empty collection). -/
theorem activities_never_updated_or_deleted
    (coll : List (String × ActivityDoc)) (freshId : String)
    (h : coll.lookup freshId = none) (dbPresent : Bool)
    (outcome : WriteOutcome) (s : AppState) (ro wo : Bool) :
    (∀ (k : String) (v : ActivityDoc), coll.lookup k = some v →
      (((logUserActivity dbPresent freshId outcome s).2).foldl applyWrite
        coll).lookup k = some v)
    ∧ (∀ (k : String) (v : ActivityDoc), coll.lookup k = some v →
      ((logInitialActivity ro wo coll).foldl applyWrite coll).lookup k
        = some v) := by
  constructor
  · intro k v hk
    unfold logUserActivity
    split
    · simpa using hk
    · cases outcome with
      | success =>
          have hany := any_key_eq_false_of_lookup_none coll freshId h
          simp only [List.foldl, applyWrite, hany, Bool.false_eq_true, if_false]
          exact lookup_append_of_some coll _ k v hk
      | failure => simpa using hk
  · intro k v hk
    unfold logInitialActivity
    split
    · simpa using hk
    · split
      · next he =>
          rw [List.isEmpty_iff] at he
          subst he
          simp [List.lookup] at hk
      · simpa using hk

/-- Witness for C7 at a concrete input: with one existing record, both
the user-action write (under a fresh id) and the seed logic leave the
existing record bound to its old value. -/
theorem activities_never_updated_or_deleted_witness :
    ((((logUserActivity true "b2" WriteOutcome.success sampleState).2).foldl
        applyWrite [("a1", initialActivity)]).lookup "a1" = some initialActivity)
    ∧ (((logInitialActivity true true [("a1", initialActivity)]).foldl
        applyWrite [("a1", initialActivity)]).lookup "a1" = some initialActivity) := by
  have h := activities_never_updated_or_deleted [("a1", initialActivity)] "b2"
    (by decide) true WriteOutcome.success sampleState true true
  exact ⟨h.1 "a1" initialActivity (by decide), h.2 "a1" initialActivity (by decide)⟩

/-- C8: when the `db` handle is null, or the user id is null, or the
message trims to the empty string, `logUserActivity` performs no write
and leaves the whole component state (the status string included)
unchanged. -/
theorem logUserActivity_guard_noop (dbPresent : Bool) (freshId : String)
    (outcome : WriteOutcome) (s : AppState)
    (h : dbPresent = false ∨ s.userId = none ∨ jsTrim s.logMessage = "") :
    logUserActivity dbPresent freshId outcome s = (s, []) := by
  unfold logUserActivity
  rw [if_pos]
  rcases h with h | h | h
  · exact Or.inl h
  · exact Or.inr (Or.inl (by simp [jsTruthyStr, h]))
  · exact Or.inr (Or.inr h)

/-- Witness for C8 at a concrete input: in the initial state (user id
null, message empty) nothing happens. -/
theorem logUserActivity_guard_noop_witness :
    logUserActivity true "a1" WriteOutcome.success initState = (initState, []) :=
  logUserActivity_guard_noop true "a1" WriteOutcome.success initState
    (Or.inr (Or.inl rfl))

/-- C9: on a successful write through an enabled Log Activity button
(non-blank message, not the transient status), the stored `content`
equals the trimmed message as it was when `logUserActivity` was
invoked — the write uses the `logMessage` captured at invocation, so
the `Logging...` status set at the start of the call is not what is
written — and the status string is reset to the empty string on
success. -/
theorem log_content_from_invocation (freshId : String) (s : AppState)
    (hu : jsTruthyStr s.userId = true) (hb : logButtonEnabled s = true) :
    (logUserActivity true freshId WriteOutcome.success s).2
      = [ActivityWrite.mk freshId (ActivityDoc.mk (jsTrim s.logMessage)
          TsValue.server (s.userId.getD "") (some s.isAdmin) (some "1.0"))]
    ∧ (logUserActivity true freshId WriteOutcome.success s).1.logMessage = ""
    ∧ (jsTrim s.logMessage ≠ "Logging..." →
        ∀ w ∈ (logUserActivity true freshId WriteOutcome.success s).2,
          w.doc.content ≠ "Logging...") := by
  have htrim : jsTrim s.logMessage ≠ "" := by
    have hb2 := hb
    simp only [logButtonEnabled, Bool.and_eq_true, bne_iff_ne] at hb2
    exact hb2.1
  have hguard : ¬ ((true = false) ∨ (jsTruthyStr s.userId = false)
      ∨ (jsTrim s.logMessage = "")) := by
    push_neg
    exact ⟨by simp, by simp [hu], htrim⟩
  refine ⟨?_, ?_, ?_⟩
  · unfold logUserActivity
    rw [if_neg hguard]
  · unfold logUserActivity
    rw [if_neg hguard]
  · intro hne w hw
    unfold logUserActivity at hw
    rw [if_neg hguard] at hw
    simp only [List.mem_singleton] at hw
    subst hw
    exact hne

/-- Witness for C9 at a concrete input: from `sampleState` (message
`  hello  `) the successful write stores the trimmed content `hello`
and clears the status string. -/
theorem log_content_from_invocation_witness :
    (logUserActivity true "a1" WriteOutcome.success sampleState).2
      = [ActivityWrite.mk "a1" (ActivityDoc.mk "hello" TsValue.server "u1"
          (some false) (some "1.0"))]
    ∧ (logUserActivity true "a1" WriteOutcome.success sampleState).1.logMessage
      = "" := by
  have h := log_content_from_invocation "a1" sampleState (by decide) (by decide)
  refine ⟨?_, h.2.1⟩
  rw [h.1]
  decide

/-- C10: when the sign-in attempt rejects, the callback sets `userId`
to the literal string `anonymous`, still marks authentication ready and
stops the loading state, and any activity write performed from the
resulting state (whatever message is typed later) carries userId
`anonymous`. -/
theorem auth_failure_fallback (tok : Option String) (r : GetDocResult)
    (dbPresent : Bool) (s : AppState) :
    ((authCallback tok AuthUser.signedOut false r dbPresent s).1.userId
      = some "anonymous")
    ∧ ((authCallback tok AuthUser.signedOut false r dbPresent s).1.isAuthReady
      = true)
    ∧ ((authCallback tok AuthUser.signedOut false r dbPresent s).1.loading
      = false)
    ∧ (∀ (freshId msg : String) (outcome : WriteOutcome) (w : ActivityWrite),
        w ∈ (logUserActivity true freshId outcome
          { (authCallback tok AuthUser.signedOut false r dbPresent s).1 with
            logMessage := msg }).2 →
        w.doc.userId = "anonymous") := by
  refine ⟨rfl, rfl, rfl, ?_⟩
  intro freshId msg outcome w hw
  unfold logUserActivity at hw
  split at hw
  · simp at hw
  · cases outcome with
    | success =>
        simp only [List.mem_singleton] at hw
        subst hw
        rfl
    | failure => simp at hw

/-- Witness for C10 at a concrete input: after a failed anonymous
sign-in from the initial state, the state carries userId `anonymous`,
and a subsequent write of the message `hi` stores userId `anonymous`. -/
theorem auth_failure_fallback_witness :
    ((authCallback none AuthUser.signedOut false GetDocResult.missing true
        initState).1.userId = some "anonymous")
    ∧ ∃ w, w ∈ (logUserActivity true "a1" WriteOutcome.success
        { (authCallback none AuthUser.signedOut false GetDocResult.missing true
            initState).1 with logMessage := "hi" }).2
      ∧ w.doc.userId = "anonymous" := by
  have h := auth_failure_fallback none GetDocResult.missing true initState
  have hne : (logUserActivity true "a1" WriteOutcome.success
      { (authCallback none AuthUser.signedOut false GetDocResult.missing true
          initState).1 with logMessage := "hi" }).2 ≠ [] := by decide
  obtain ⟨w, hw⟩ := List.exists_mem_of_ne_nil _ hne
  exact ⟨h.1, w, hw, h.2.2.2 "a1" "hi" WriteOutcome.success w hw⟩

/-- C4 counterexample: on a failed sign-in the error handler does
change state other than a status string — starting from the initial
state, `userId` changes (to `anonymous`) while the status string is
untouched, refuting the claim that error handlers only log or set a
static status string and change no other state. -/
theorem auth_error_handler_changes_user_state :
    (authCallback none AuthUser.signedOut false GetDocResult.missing true
        initState).1.userId ≠ initState.userId
    ∧ (authCallback none AuthUser.signedOut false GetDocResult.missing true
        initState).1.logMessage = initState.logMessage := by
  decide

/-- C4 amended: every failure is caught at its call site and no retry
is performed (exactly one sign-in attempt, at most one write); the
seed-write handler only logs; the activity-write handler sets the
status string to `Error logging activity.` and changes nothing else;
but additionally the auth-failure handler sets `userId` to
`anonymous` and the admin-check failure handler sets `isAdmin` to
`false`. -/
theorem failures_caught_no_retry (tok : Option String) (r : GetDocResult)
    (dbPresent : Bool) (s : AppState) (uid : String) (hu : uid ≠ "")
    (freshId : String) (t : AppState)
    (hut : jsTruthyStr t.userId = true) (hmt : jsTrim t.logMessage ≠ "") :
    ((authCallback tok AuthUser.signedOut false r dbPresent s).1
      = { s with userId := some "anonymous", isAuthReady := true,
                 loading := false })
    ∧ ((authCallback tok AuthUser.signedOut false r dbPresent s).2.length = 1)
    ∧ (checkAdminStatus true (some uid) GetDocResult.failure s
      = { s with isAdmin := false })
    ∧ (∀ (wo : Bool) (coll : List (String × ActivityDoc)),
        logInitialActivity false wo coll = [])
    ∧ (∀ coll : List (String × ActivityDoc),
        logInitialActivity true false coll = [])
    ∧ ((logUserActivity true freshId WriteOutcome.failure t).1
      = { t with logMessage := "Error logging activity." })
    ∧ ((logUserActivity true freshId WriteOutcome.failure t).2 = []) := by
  have hadm : ¬ ((true = false) ∨ (jsTruthyStr (some uid) = false)) := by
    push_neg
    exact ⟨by simp, by simp [jsTruthyStr, hu]⟩
  have hguard : ¬ ((true = false) ∨ (jsTruthyStr t.userId = false)
      ∨ (jsTrim t.logMessage = "")) := by
    push_neg
    exact ⟨by simp, by simp [hut], hmt⟩
  refine ⟨rfl, rfl, ?_, fun wo coll => rfl, fun coll => ?_, ?_, ?_⟩
  · unfold checkAdminStatus
    rw [if_neg hadm]
  · cases coll <;> rfl
  · unfold logUserActivity
    rw [if_neg hguard]
  · unfold logUserActivity
    rw [if_neg hguard]

/-- Witness for C4 (amended) at concrete inputs: the auth-failure
fallback, the admin-check failure, and the failed activity write from
`sampleState`. -/
theorem failures_caught_no_retry_witness :
    ((authCallback none AuthUser.signedOut false GetDocResult.missing true
        initState).1
      = { initState with userId := some "anonymous", isAuthReady := true,
                         loading := false })
    ∧ (checkAdminStatus true (some "u1") GetDocResult.failure initState
      = { initState with isAdmin := false })
    ∧ ((logUserActivity true "a1" WriteOutcome.failure sampleState).1
      = { sampleState with logMessage := "Error logging activity." })
    ∧ ((logUserActivity true "a1" WriteOutcome.failure sampleState).2 = []) := by
  have h := failures_caught_no_retry none GetDocResult.missing true initState
    "u1" (by decide) "a1" sampleState (by decide) (by decide)
  exact ⟨h.1, h.2.2.1, h.2.2.2.2.2.1, h.2.2.2.2.2.2⟩

/-- C5: the live feed subscription queries the shared activity
collection ordered by `timestamp` descending with a cap of 100, and on
every delivered snapshot the rendered list is exactly the snapshot's
documents in snapshot order — same length, and the entry at every
position carries the id, content, userId and `is_admin` of the document
at that position, with the timestamp passed through the formatting
step. -/
theorem feed_query_and_render (appId : String) (fmt : Nat → String)
    (docs : List SnapshotDoc) (s : AppState) :
    ((feedQuery appId).collectionPath = ACTIVITIES_COLLECTION_PATH appId
      ∧ (feedQuery appId).orderByField = "timestamp"
      ∧ (feedQuery appId).descending = true
      ∧ (feedQuery appId).limitCount = 100)
    ∧ (applySnapshot fmt docs s).globalActivities.length = docs.length
    ∧ (∀ (i : Nat) (hi : i < docs.length)
        (hj : i < (applySnapshot fmt docs s).globalActivities.length),
        ((applySnapshot fmt docs s).globalActivities.get ⟨i, hj⟩
          = renderDoc fmt (docs.get ⟨i, hi⟩))
        ∧ ((applySnapshot fmt docs s).globalActivities.get ⟨i, hj⟩).id
          = (docs.get ⟨i, hi⟩).id
        ∧ ((applySnapshot fmt docs s).globalActivities.get ⟨i, hj⟩).content
          = (docs.get ⟨i, hi⟩).content
        ∧ ((applySnapshot fmt docs s).globalActivities.get ⟨i, hj⟩).userId
          = (docs.get ⟨i, hi⟩).userId
        ∧ ((applySnapshot fmt docs s).globalActivities.get ⟨i, hj⟩).is_admin
          = (docs.get ⟨i, hi⟩).is_admin
        ∧ ((applySnapshot fmt docs s).globalActivities.get ⟨i, hj⟩).timestamp
          = renderTimestamp fmt (docs.get ⟨i, hi⟩).timestamp) := by
  refine ⟨⟨rfl, rfl, rfl, rfl⟩, ?_, ?_⟩
  · simp [applySnapshot, onSnapshotHandler]
  · intro i hi hj
    have hmain : (applySnapshot fmt docs s).globalActivities.get ⟨i, hj⟩
        = renderDoc fmt (docs.get ⟨i, hi⟩) := by
      simp [applySnapshot, onSnapshotHandler, List.get_eq_getElem]
    refine ⟨hmain, ?_, ?_, ?_, ?_, ?_⟩ <;> rw [hmain] <;> rfl

/-- Witness for C5 at a concrete input: a one-document snapshot renders
to the one corresponding entry. -/
theorem feed_query_and_render_witness :
    (feedQuery "app1").limitCount = 100
    ∧ (applySnapshot (fun _ => "t")
        [SnapshotDoc.mk "d1" "c1" "u1" none none (some 5)]
        initState).globalActivities.length = 1
    ∧ ((applySnapshot (fun _ => "t")
        [SnapshotDoc.mk "d1" "c1" "u1" none none (some 5)]
        initState).globalActivities.get ⟨0, by decide⟩).content = "c1" := by
  have h := feed_query_and_render "app1" (fun _ => "t")
    [SnapshotDoc.mk "d1" "c1" "u1" none none (some 5)] initState
  have hc := (h.2.2 0 (by decide) (by decide)).2.2.1
  exact ⟨h.1.2.2.2, h.2.1, hc.trans (by decide)⟩

/-- C6 counterexample: with the environment supplying the empty string
as the custom token, a token is supplied (`some ""` is not `none`) yet
the attempted sign-in is anonymous, because the source branches on the
JS truthiness of `initialAuthToken` and the empty string is falsy. -/
theorem anonymous_attempt_despite_token :
    (authCallback (some "") AuthUser.signedOut true GetDocResult.missing true
        initState).2 = [SignInAttempt.anonymous]
    ∧ (some "" : Option String) ≠ none := by
  decide

/-- C6 amended: whenever no user is signed in the callback issues
exactly one sign-in attempt: with the supplied custom token when a
nonempty token is provided, and anonymously when no token or an empty
token is supplied; when a user is signed in no attempt is issued. -/
theorem sign_in_attempt_selection (tok : Option String) (ok : Bool)
    (r : GetDocResult) (dbPresent : Bool) (s : AppState) :
    ((authCallback tok AuthUser.signedOut ok r dbPresent s).2.length = 1)
    ∧ (∀ t : String, tok = some t → t ≠ "" →
        (authCallback tok AuthUser.signedOut ok r dbPresent s).2
          = [SignInAttempt.customToken t])
    ∧ ((tok = none ∨ tok = some "") →
        (authCallback tok AuthUser.signedOut ok r dbPresent s).2
          = [SignInAttempt.anonymous])
    ∧ (∀ uid : String,
        (authCallback tok (AuthUser.signedIn uid) ok r dbPresent s).2 = []) := by
  refine ⟨rfl, ?_, ?_, fun uid => rfl⟩
  · rintro t rfl hne
    have ht : (t != "") = true := by simp [hne]
    simp [authCallback, jsTruthyStr, ht]
  · rintro (rfl | rfl) <;> simp [authCallback, jsTruthyStr]

/-- Witness for C6 (amended) at concrete inputs: a nonempty token is
used for the custom-token attempt, and no token yields the anonymous
attempt. -/
theorem sign_in_attempt_selection_witness :
    ((authCallback (some "tok1") AuthUser.signedOut true GetDocResult.missing
        true initState).2 = [SignInAttempt.customToken "tok1"])
    ∧ ((authCallback none AuthUser.signedOut true GetDocResult.missing true
        initState).2 = [SignInAttempt.anonymous]) := by
  have h1 := sign_in_attempt_selection (some "tok1") true GetDocResult.missing
    true initState
  have h2 := sign_in_attempt_selection none true GetDocResult.missing true
    initState
  exact ⟨h1.2.1 "tok1" rfl (by decide), h2.2.2.1 (Or.inl rfl)⟩

end RealTimeAppManager
